import Mathlib

/-!
Verification of the trucking-analytics dashboard (`loadapp.py`).

The pipeline embedded here follows the source file:
* `load_data` (source lines 44-49): parse the spreadsheet, strip the time of
  day from `Pickup Date`, and derive `Net Profit`.
* `filtered_df` (source lines 80-90): sequential conjunctive filtering over
  six dimensions (driver, status, truck, state, city, date range).
* the city-options query (source line 69).
* the KPI metrics and grouped aggregates (source lines 94-127).
* the export helper `to_excel` (source lines 132-136), modelled at the level
  of sheet cells.
* the top-level `try`/`except` that shows a load failure as an error message
  (source lines 51-52 and 140-141).

Money amounts are modelled as exact rationals, dates as integers (day
ordinals).  Nullable spreadsheet cells are `Option ℚ`.
-/

namespace LoadApp

/-- A cell value as it appears in a spreadsheet sheet. -/
inductive Cell where
  | str (v : String)
  | num (v : ℚ)
  | date (v : Int)
  | blank
deriving DecidableEq, Repr

/-- One row of the source spreadsheet before derivation.  `pickupTime` is the
time-of-day component that `pd.to_datetime(...).dt.date` discards (source
line 47); `amount`, `driverPay` and `lumperPaid` are nullable cells. -/
structure RawRow where
  driver : String
  deliveryStatus : String
  truckNo : String
  pickupState : String
  pickupCity : String
  pickupDate : Int
  pickupTime : Int
  amount : Option ℚ
  driverPay : Option ℚ
  lumperPaid : Option ℚ
  rateMile : ℚ
  brokerName : String
deriving DecidableEq, Repr

/-- One row of the loaded table: the raw columns with the date normalised to
day granularity plus the derived `Net Profit` column. -/
structure Row where
  driver : String
  deliveryStatus : String
  truckNo : String
  pickupState : String
  pickupCity : String
  pickupDate : Int
  amount : Option ℚ
  driverPay : Option ℚ
  lumperPaid : Option ℚ
  rateMile : ℚ
  brokerName : String
  netProfit : Option ℚ
deriving DecidableEq, Repr

/-- Derivation performed by `load_data` on each row (source lines 47-48):
the time of day is stripped from the pickup date and
`Net Profit = Amount - (Driver Pay fillna 0 + Lumper Paid fillna 0)`.
In pandas a missing `Amount` propagates (NaN minus anything is NaN), so the
result is `none` exactly when `Amount` is absent. -/
def deriveRow (r : RawRow) : Row :=
  { driver := r.driver
    deliveryStatus := r.deliveryStatus
    truckNo := r.truckNo
    pickupState := r.pickupState
    pickupCity := r.pickupCity
    pickupDate := r.pickupDate
    amount := r.amount
    driverPay := r.driverPay
    lumperPaid := r.lumperPaid
    rateMile := r.rateMile
    brokerName := r.brokerName
    netProfit := r.amount.map (fun a => a - (r.driverPay.getD 0 + r.lumperPaid.getD 0)) }

/-- Load-time failures.  The source catches every exception raised inside the
`try` block; the spec classifies the load-time ones as `DataLoadError`. -/
inductive DataLoadError where
  | fileMissing
  | malformed
  | missingColumn (name : String)
deriving DecidableEq, Repr

/-- The state of the source file `Load Data.xlsx` as `pd.read_excel` sees it:
absent, unreadable, or a table with a set of named columns. -/
inductive SourceFile where
  | missing
  | malformed
  | table (columns : List String) (rows : List RawRow)

/-- The column names the program reads (source lines 47-48, 61-69, 94-126). -/
def requiredColumns : List String :=
  ["Driver", "Delivery Status", "Truck#", "Pickup State", "PPickup City",
   "Pickup Date", "Amount", "Driver Pay", "Lumper Paid", "Rate/Mile", "Broker Name"]

/-- `load_data` (source lines 44-49).  Modelled from the spec: the failure
modes of `pd.read_excel` and of the column subscripts (file missing,
workbook malformed, expected column absent) are library behaviour not in the
repository; the spec classifies them as `DataLoadError`.  On success every
row is derived with `deriveRow`. -/
def load_data : SourceFile → Except DataLoadError (List Row)
  | SourceFile.missing => Except.error DataLoadError.fileMissing
  | SourceFile.malformed => Except.error DataLoadError.malformed
  | SourceFile.table cols rows =>
    match requiredColumns.find? (fun c => !(cols.contains c)) with
    | some c => Except.error (DataLoadError.missingColumn c)
    | none => Except.ok (rows.map deriveRow)

/-- The value of the `st.date_input` widget (source line 75): a completed
range is a 2-tuple; while the user has picked only one bound the widget
returns a 1-tuple, which fails the `len(sel_dates) == 2` check on line 88. -/
inductive DateSel where
  | noSel
  | oneBound (d : Int)
  | range (s e : Int)
deriving DecidableEq, Repr

/-- The user-selected filter criteria: one (possibly empty) list of allowed
values per categorical dimension plus the date-range widget state. -/
structure FilterCriteria where
  selDriver : List String
  selStatus : List String
  selTruck : List String
  selState : List String
  selCity : List String
  selDates : DateSel
deriving DecidableEq, Repr

/-- The filtering logic (source lines 80-90): each non-empty categorical
selection keeps the rows whose field is a member of the selection, applied
in sequence; the date restriction applies only when both bounds are present
(`isinstance(sel_dates, tuple) and len(sel_dates) == 2`). -/
def filtered_df (df : List Row) (c : FilterCriteria) : List Row :=
  let d1 := if c.selDriver.isEmpty then df else df.filter (fun r => c.selDriver.contains r.driver)
  let d2 := if c.selStatus.isEmpty then d1 else d1.filter (fun r => c.selStatus.contains r.deliveryStatus)
  let d3 := if c.selTruck.isEmpty then d2 else d2.filter (fun r => c.selTruck.contains r.truckNo)
  let d4 := if c.selState.isEmpty then d3 else d3.filter (fun r => c.selState.contains r.pickupState)
  let d5 := if c.selCity.isEmpty then d4 else d4.filter (fun r => c.selCity.contains r.pickupCity)
  match c.selDates with
  | DateSel.range s e => d5.filter (fun r => decide (s ≤ r.pickupDate) && decide (r.pickupDate ≤ e))
  | _ => d5

/-- The six filter dimensions, in the order the source applies them. -/
inductive Dim where
  | driver
  | status
  | truck
  | state
  | city
  | dateRange
deriving DecidableEq, Repr

/-- One step of the filtering chain, per dimension (source lines 81-90). -/
def dimStep (c : FilterCriteria) (t : List Row) : Dim → List Row
  | Dim.driver => if c.selDriver.isEmpty then t else t.filter (fun r => c.selDriver.contains r.driver)
  | Dim.status => if c.selStatus.isEmpty then t else t.filter (fun r => c.selStatus.contains r.deliveryStatus)
  | Dim.truck => if c.selTruck.isEmpty then t else t.filter (fun r => c.selTruck.contains r.truckNo)
  | Dim.state => if c.selState.isEmpty then t else t.filter (fun r => c.selState.contains r.pickupState)
  | Dim.city => if c.selCity.isEmpty then t else t.filter (fun r => c.selCity.contains r.pickupCity)
  | Dim.dateRange =>
    match c.selDates with
    | DateSel.range s e => t.filter (fun r => decide (s ≤ r.pickupDate) && decide (r.pickupDate ≤ e))
    | _ => t

/-- The Boolean predicate each dimension step filters with (the steps with an
empty selection keep everything). -/
def dimPred (c : FilterCriteria) : Dim → Row → Bool
  | Dim.driver => if c.selDriver.isEmpty then fun _ => true else fun r => c.selDriver.contains r.driver
  | Dim.status => if c.selStatus.isEmpty then fun _ => true else fun r => c.selStatus.contains r.deliveryStatus
  | Dim.truck => if c.selTruck.isEmpty then fun _ => true else fun r => c.selTruck.contains r.truckNo
  | Dim.state => if c.selState.isEmpty then fun _ => true else fun r => c.selState.contains r.pickupState
  | Dim.city => if c.selCity.isEmpty then fun _ => true else fun r => c.selCity.contains r.pickupCity
  | Dim.dateRange =>
    match c.selDates with
    | DateSel.range s e => fun r => decide (s ≤ r.pickupDate) && decide (r.pickupDate ≤ e)
    | _ => fun _ => true

/-- Apply the dimension steps of `ds` in order. -/
def applyDims (c : FilterCriteria) (ds : List Dim) (t : List Row) : List Row :=
  ds.foldl (dimStep c) t

/-- The order in which the source applies the dimensions (lines 81-90). -/
def sourceOrder : List Dim :=
  [Dim.driver, Dim.status, Dim.truck, Dim.state, Dim.city, Dim.dateRange]

/-- Insertion step of a stable insertion sort with Boolean comparator. -/
def insertLe {α : Type} (le : α → α → Bool) (x : α) : List α → List α
  | [] => [x]
  | y :: ys => if le x y then x :: y :: ys else y :: insertLe le x ys

/-- Stable insertion sort with Boolean comparator (models Python's `sorted`
and the ascending key order of pandas `groupby`). -/
def sortLe {α : Type} (le : α → α → Bool) : List α → List α
  | [] => []
  | x :: xs => insertLe le x (sortLe le xs)

/-- Lexicographic string comparison used by `sorted` on strings. -/
def strLe (a b : String) : Bool := decide (a ≤ b)

/-- Distinct elements in order of first appearance (pandas `unique`). -/
def firstOcc {α : Type} [DecidableEq α] : List α → List α
  | [] => []
  | x :: xs => x :: (firstOcc xs).filter (fun y => decide (y ≠ x))

/-- The city-options query (source line 69): all cities when no state is
selected, otherwise the cities of rows whose pickup state is selected;
the result is sorted as the source sorts its option list. -/
def citiesFor (df : List Row) (selState : List String) : List String :=
  if selState.isEmpty then
    sortLe strLe (firstOcc (df.map (fun r => r.pickupCity)))
  else
    sortLe strLe (firstOcc ((df.filter (fun r => selState.contains r.pickupState)).map (fun r => r.pickupCity)))

/-- KPI "Revenue" (source line 94): sum of `Amount`; pandas `sum` skips
missing values, hence `getD 0`. -/
def revenue (v : List Row) : ℚ := (v.map (fun r => r.amount.getD 0)).sum

/-- KPI "Profit" (source line 95): sum of the derived `Net Profit`. -/
def profit (v : List Row) : ℚ := (v.map (fun r => r.netProfit.getD 0)).sum

/-- KPI "Avg RPM" (source line 97): mean of `Rate/Mile`, with the explicit
guard `if not filtered_df.empty else 0`. -/
def avgRPM (v : List Row) : ℚ :=
  if v.isEmpty then 0 else (v.map (fun r => r.rateMile)).sum / (v.length : ℚ)

/-- KPI "Loads" (source line 99): the row count of the filtered view. -/
def loads (v : List Row) : Nat := v.length

/-- pandas `groupby(key)[col].sum()`: one entry per distinct key present in
the view, keys sorted ascending, each paired with the sum of `val`. -/
def groupSum {κ : Type} [DecidableEq κ] (le : κ → κ → Bool)
    (key : Row → κ) (val : Row → ℚ) (v : List Row) : List (κ × ℚ) :=
  (sortLe le (firstOcc (v.map key))).map
    (fun k => (k, ((v.filter (fun r => decide (key r = k))).map val).sum))

/-- "Revenue by Driver" (source line 104): `groupby("Driver")["Amount"].sum()`. -/
def d_sum (v : List Row) : List (String × ℚ) :=
  groupSum strLe (fun r => r.driver) (fun r => r.amount.getD 0) v

/-- "Revenue Trend" (source line 110): `groupby("Pickup Date")["Amount"].sum()`,
dates ascending. -/
def t_sum (v : List Row) : List (Int × ℚ) :=
  groupSum (fun a b => decide (a ≤ b)) (fun r => r.pickupDate) (fun r => r.amount.getD 0) v

/-- "Loads by State" (source lines 119-120): `value_counts` of `Pickup State`,
counts descending, ties kept in order of first appearance. -/
def s_counts (v : List Row) : List (String × Nat) :=
  sortLe (fun a b => decide (b.2 ≤ a.2))
    ((firstOcc (v.map (fun r => r.pickupState))).map
      (fun k => (k, (v.filter (fun r => decide (r.pickupState = k))).length)))

/-- "Broker Profit Share" (source line 126):
`groupby("Broker Name")["Net Profit"].sum()`. -/
def b_sum (v : List Row) : List (String × ℚ) :=
  groupSum strLe (fun r => r.brokerName) (fun r => r.netProfit.getD 0) v

/-- The header row `to_excel` writes: every column of the view, including the
derived `Net Profit`, and no index column (source line 135, `index=False`). -/
def sheetHeader : List Cell :=
  [Cell.str "Driver", Cell.str "Delivery Status", Cell.str "Truck#",
   Cell.str "Pickup State", Cell.str "PPickup City", Cell.str "Pickup Date",
   Cell.str "Amount", Cell.str "Driver Pay", Cell.str "Lumper Paid",
   Cell.str "Rate/Mile", Cell.str "Broker Name", Cell.str "Net Profit"]

/-- A nullable currency value as a cell: missing values export as blanks. -/
def cellOfOpt : Option ℚ → Cell
  | some q => Cell.num q
  | none => Cell.blank

/-- The cells of one exported row, in column order. -/
def rowCells (r : Row) : List Cell :=
  [Cell.str r.driver, Cell.str r.deliveryStatus, Cell.str r.truckNo,
   Cell.str r.pickupState, Cell.str r.pickupCity, Cell.date r.pickupDate,
   cellOfOpt r.amount, cellOfOpt r.driverPay, cellOfOpt r.lumperPaid,
   Cell.num r.rateMile, Cell.str r.brokerName, cellOfOpt r.netProfit]

/-- `to_excel` (source lines 132-136), modelled at the level of the single
sheet it writes: a header row followed by one row of cells per view row,
with no index column. -/
def to_excel (v : List Row) : List (List Cell) := sheetHeader :: v.map rowCells

/-- Read one optional-currency cell back. -/
def optOfCell : Cell → Option (Option ℚ)
  | Cell.num q => some (some q)
  | Cell.blank => some none
  | _ => none

/-- Modelled from the spec: re-parsing one data row of the exported
spreadsheet (spec section 8, round-trip); the repository reads spreadsheets
through `pd.read_excel`, which is not part of the source. -/
def parseCells : List Cell → Option Row
  | [Cell.str d, Cell.str ds, Cell.str t, Cell.str ps, Cell.str pc, Cell.date pd,
     ca, cdp, clp, Cell.num rm, Cell.str bn, cnp] =>
    match optOfCell ca, optOfCell cdp, optOfCell clp, optOfCell cnp with
    | some a, some dp, some lp, some np =>
      some { driver := d, deliveryStatus := ds, truckNo := t, pickupState := ps,
             pickupCity := pc, pickupDate := pd, amount := a, driverPay := dp,
             lumperPaid := lp, rateMile := rm, brokerName := bn, netProfit := np }
    | _, _, _, _ => none
  | _ => none

/-- Modelled from the spec: re-parsing the whole exported sheet (spec
section 8, round-trip): the header row is checked, the remaining rows are
parsed in order. -/
def parseSheet : List (List Cell) → Option (List Row)
  | [] => none
  | h :: rows => if h = sheetHeader then rows.mapM parseCells else none

/-- The parts of the rendered page a load failure can affect: the error
banner and the displayed (filtered) table. -/
structure UIState where
  errorMsg : Option String
  view : Option (List Row)
deriving DecidableEq, Repr

/-- The message `st.error(f"Error: {e}")` displays (source line 141). -/
def errorText : DataLoadError → String
  | DataLoadError.fileMissing => "Error: file not found"
  | DataLoadError.malformed => "Error: malformed workbook"
  | DataLoadError.missingColumn n => "Error: " ++ n

/-- One run of the page body (source lines 51-141): on a load failure the
`except` branch shows the error message and renders nothing else, leaving
the previously rendered view in place; on success the filtered table is
computed and shown with no error banner. -/
def renderApp (src : SourceFile) (c : FilterCriteria) (prev : UIState) : UIState :=
  match load_data src with
  | Except.error e => { prev with errorMsg := some (errorText e) }
  | Except.ok df => { errorMsg := none, view := some (filtered_df df c) }

/-- First scenario row (spec section 8): Driver "A", TX, Amount 100, Driver
Pay 20, Lumper 0. -/
def raw1 : RawRow :=
  ⟨"A", "Delivered", "T1", "TX", "Dallas", 1, 0, some 100, some 20, some 0, 2, "B1"⟩

/-- Second scenario row: Driver "B", CA, Amount 200, Driver Pay 50, Lumper 10. -/
def raw2 : RawRow :=
  ⟨"B", "Delivered", "T2", "CA", "Los Angeles", 2, 0, some 200, some 50, some 10, 2, "B2"⟩

/-- Third scenario row: Driver "A", TX, Amount 150, Driver Pay 0, Lumper 0. -/
def raw3 : RawRow :=
  ⟨"A", "In Transit", "T1", "TX", "Austin", 3, 0, some 150, some 0, some 0, 2, "B1"⟩

/-- The loaded 3-row scenario table. -/
def tbl3 : List Row := [raw1, raw2, raw3].map deriveRow

/-- Criteria selecting only driver "A". -/
def critA : FilterCriteria := ⟨["A"], [], [], [], [], DateSel.noSel⟩

/-- Criteria with every selection empty and no completed date range. -/
def emptyCriteria : FilterCriteria := ⟨[], [], [], [], [], DateSel.noSel⟩

/-- Criteria with only a completed date range [1, 2]. -/
def critRange : FilterCriteria := ⟨[], [], [], [], [], DateSel.range 1 2⟩

/-- Criteria where the user has picked only the start date. -/
def critOneDate : FilterCriteria := ⟨[], [], [], [], [], DateSel.oneBound 1⟩

theorem dimStep_eq_filter (c : FilterCriteria) (t : List Row) (d : Dim) :
    dimStep c t d = t.filter (dimPred c d) := by
  cases d with
  | driver => by_cases h : c.selDriver.isEmpty <;> simp [dimStep, dimPred, h]
  | status => by_cases h : c.selStatus.isEmpty <;> simp [dimStep, dimPred, h]
  | truck => by_cases h : c.selTruck.isEmpty <;> simp [dimStep, dimPred, h]
  | state => by_cases h : c.selState.isEmpty <;> simp [dimStep, dimPred, h]
  | city => by_cases h : c.selCity.isEmpty <;> simp [dimStep, dimPred, h]
  | dateRange => cases h : c.selDates <;> simp [dimStep, dimPred, h]

theorem filter_swap (p q : Row → Bool) (l : List Row) :
    (l.filter q).filter p = (l.filter p).filter q := by
  rw [List.filter_filter, List.filter_filter]
  simp [Bool.and_comm]

theorem dimStep_swap (c : FilterCriteria) (t : List Row) (d1 d2 : Dim) :
    dimStep c (dimStep c t d1) d2 = dimStep c (dimStep c t d2) d1 := by
  rw [dimStep_eq_filter, dimStep_eq_filter, dimStep_eq_filter, dimStep_eq_filter, filter_swap]

theorem applyDims_perm (c : FilterCriteria) {l1 l2 : List Dim} (h : l1.Perm l2) :
    ∀ t, applyDims c l1 t = applyDims c l2 t := by
  induction h with
  | nil => intro t; rfl
  | cons d _ ih => intro t; simpa [applyDims] using ih (dimStep c t d)
  | swap d1 d2 l =>
    intro t
    simp only [applyDims, List.foldl_cons]
    rw [dimStep_swap]
  | trans _ _ ih1 ih2 => intro t; exact (ih1 t).trans (ih2 t)

theorem filtered_df_eq_applyDims (t : List Row) (c : FilterCriteria) :
    filtered_df t c = applyDims c sourceOrder t := rfl

theorem applyDims_sublist (c : FilterCriteria) :
    ∀ (ds : List Dim) (t : List Row), (applyDims c ds t).Sublist t := by
  intro ds
  induction ds with
  | nil => intro t; simp [applyDims]
  | cons d ds ih =>
    intro t
    have h1 : (applyDims c ds (dimStep c t d)).Sublist (dimStep c t d) := ih _
    have h2 : (dimStep c t d).Sublist t := by
      rw [dimStep_eq_filter]; exact List.filter_sublist t
    simpa [applyDims] using h1.trans h2

theorem mem_insertLe {α : Type} (le : α → α → Bool) (x a : α) :
    ∀ l : List α, (a ∈ insertLe le x l ↔ a = x ∨ a ∈ l) := by
  intro l
  induction l with
  | nil => simp [insertLe]
  | cons y ys ih =>
    simp only [insertLe]
    split <;> simp_all
    all_goals tauto

theorem mem_sortLe {α : Type} (le : α → α → Bool) (a : α) :
    ∀ l : List α, (a ∈ sortLe le l ↔ a ∈ l) := by
  intro l
  induction l with
  | nil => simp [sortLe]
  | cons y ys ih => simp [sortLe, mem_insertLe, ih]

theorem mem_firstOcc {α : Type} [DecidableEq α] (a : α) :
    ∀ l : List α, (a ∈ firstOcc l ↔ a ∈ l) := by
  intro l
  induction l with
  | nil => simp [firstOcc]
  | cons x xs ih =>
    simp only [firstOcc, List.mem_cons, List.mem_filter, ih]
    by_cases h : a = x <;> simp [h]

/-- C1: after `load_data`, every row whose Amount is present has
`Net Profit = Amount - Driver Pay - Lumper Paid`, with missing Driver Pay or
Lumper Paid coerced to 0; in particular Net Profit is defined whenever
Amount is. -/
theorem netProfit_defined (src : SourceFile) (tbl : List Row)
    (hload : load_data src = Except.ok tbl) (r : Row) (hr : r ∈ tbl)
    (a : ℚ) (ha : r.amount = some a) :
    r.netProfit = some (a - r.driverPay.getD 0 - r.lumperPaid.getD 0) := by
  cases src with
  | missing => simp [load_data] at hload
  | malformed => simp [load_data] at hload
  | table cols rows =>
    simp only [load_data] at hload
    cases hfind : requiredColumns.find? (fun c => !(cols.contains c)) with
    | some c => rw [hfind] at hload; simp at hload
    | none =>
      rw [hfind] at hload
      simp only [Except.ok.injEq] at hload
      subst hload
      rcases List.mem_map.mp hr with ⟨rr, _, rfl⟩
      simp only [deriveRow] at ha ⊢
      rw [ha]
      simp [sub_sub]

theorem netProfit_defined_witness :
    (deriveRow raw1).netProfit =
      some ((100 : ℚ) - (deriveRow raw1).driverPay.getD 0 -
        (deriveRow raw1).lumperPaid.getD 0) :=
  netProfit_defined (SourceFile.table requiredColumns [raw1]) [deriveRow raw1]
    (by rfl) (deriveRow raw1) (by simp) 100 (by rfl)

/-- C2: when both bounds of the date range are chosen, `filtered_df` keeps
exactly the rows whose pickup date lies in the inclusive range; when the
selection is incomplete (one bound only), no date restriction is applied. -/
theorem filtered_df_date_range (t : List Row) (c : FilterCriteria) :
    (∀ s e, c.selDates = DateSel.range s e →
      filtered_df t c =
        (filtered_df t { c with selDates := DateSel.noSel }).filter
          (fun r => decide (s ≤ r.pickupDate) && decide (r.pickupDate ≤ e))) ∧
    (∀ d, c.selDates = DateSel.oneBound d →
      filtered_df t c = filtered_df t { c with selDates := DateSel.noSel }) := by
  obtain ⟨cd, cs, ct, cst, cc, cdt⟩ := c
  constructor
  · intro s e h
    dsimp only at h
    subst h
    rfl
  · intro d h
    dsimp only at h
    subst h
    rfl

theorem filtered_df_date_range_witness :
    (filtered_df tbl3 critRange =
      (filtered_df tbl3 { critRange with selDates := DateSel.noSel }).filter
        (fun r => decide ((1 : Int) ≤ r.pickupDate) && decide (r.pickupDate ≤ (2 : Int)))) ∧
    filtered_df tbl3 critOneDate =
      filtered_df tbl3 { critOneDate with selDates := DateSel.noSel } :=
  ⟨(filtered_df_date_range tbl3 critRange).1 1 2 rfl,
   (filtered_df_date_range tbl3 critOneDate).2 1 rfl⟩

/-- C3: with every categorical selection empty and no completed date range,
`filtered_df` returns the table unchanged. -/
theorem filtered_df_empty_criteria (t : List Row) (c : FilterCriteria)
    (hd : c.selDriver = []) (hs : c.selStatus = []) (ht : c.selTruck = [])
    (hst : c.selState = []) (hc : c.selCity = [])
    (hdate : ∀ s e, c.selDates ≠ DateSel.range s e) :
    filtered_df t c = t := by
  obtain ⟨cd, cs, ct, cst, cc, cdt⟩ := c
  dsimp only at hd hs ht hst hc hdate
  subst hd hs ht hst hc
  cases cdt with
  | noSel => rfl
  | oneBound d => rfl
  | range s e => exact absurd rfl (hdate s e)

theorem filtered_df_empty_criteria_witness :
    filtered_df tbl3 emptyCriteria = tbl3 :=
  filtered_df_empty_criteria tbl3 emptyCriteria rfl rfl rfl rfl rfl
    (fun _ _ h => nomatch h)

/-- C4: the conjunctive filter predicates commute: applying the six dimension
filters in any order yields the same view as the source's fixed order
`filtered_df`. -/
theorem filtered_df_order_independent (t : List Row) (c : FilterCriteria)
    (ds : List Dim) (h : ds.Perm sourceOrder) :
    applyDims c ds t = filtered_df t c :=
  (applyDims_perm c h t).trans (filtered_df_eq_applyDims t c).symm

theorem filtered_df_order_independent_witness :
    applyDims critA
      [Dim.dateRange, Dim.city, Dim.state, Dim.truck, Dim.status, Dim.driver]
      tbl3 = filtered_df tbl3 critA :=
  filtered_df_order_independent tbl3 critA
    [Dim.dateRange, Dim.city, Dim.state, Dim.truck, Dim.status, Dim.driver]
    (by decide)

/-- C5: on the empty view every scalar KPI is zero, every grouped aggregate
is empty, and every aggregate is a total function (no exception). -/
theorem summarize_empty_view :
    revenue [] = 0 ∧ profit [] = 0 ∧ avgRPM [] = 0 ∧ loads [] = 0 ∧
    d_sum [] = [] ∧ t_sum [] = [] ∧ s_counts [] = [] ∧ b_sum [] = [] := by
  refine ⟨rfl, rfl, rfl, rfl, rfl, rfl, rfl, rfl⟩

/-- C6: with no state selected the city options are all cities of the table;
with a non-empty state selection they are exactly the cities of rows whose
pickup state is selected. -/
theorem citiesFor_spec (t : List Row) (states : List String) (city : String) :
    (states = [] → (city ∈ citiesFor t states ↔ ∃ r ∈ t, r.pickupCity = city)) ∧
    (states ≠ [] → (city ∈ citiesFor t states ↔
      ∃ r ∈ t, r.pickupState ∈ states ∧ r.pickupCity = city)) := by
  constructor
  · intro h
    subst h
    simp [citiesFor, mem_sortLe, mem_firstOcc, List.mem_map]
  · intro h
    have hne : states.isEmpty = false := by
      cases states with
      | nil => exact absurd rfl h
      | cons a l => rfl
    simp [citiesFor, hne, mem_sortLe, mem_firstOcc, List.mem_map, List.mem_filter,
      and_assoc]

theorem citiesFor_spec_witness :
    "Dallas" ∈ citiesFor tbl3 ["TX"] ↔
      ∃ r ∈ tbl3, r.pickupState ∈ ["TX"] ∧ r.pickupCity = "Dallas" :=
  (citiesFor_spec tbl3 ["TX"] "Dallas").2 (by simp)

/-- C7: on the 3-row scenario table, filtering by driver "A" keeps exactly
the rows with amounts 100 and 150; on that view Revenue = 250, Profit = 230
and Count = 2; and Loads-by-State on the whole table is TX ↦ 2, CA ↦ 1,
listing only states actually present. -/
theorem scenario_three_rows :
    filtered_df tbl3 critA = [deriveRow raw1, deriveRow raw3] ∧
    revenue (filtered_df tbl3 critA) = 250 ∧
    profit (filtered_df tbl3 critA) = 230 ∧
    loads (filtered_df tbl3 critA) = 2 ∧
    s_counts tbl3 = [("TX", 2), ("CA", 1)] := by
  have hfilter : filtered_df tbl3 critA = [deriveRow raw1, deriveRow raw3] := rfl
  refine ⟨hfilter, ?_, ?_, ?_, ?_⟩
  · rw [hfilter]
    norm_num [revenue, deriveRow, raw1, raw3]
  · rw [hfilter]
    norm_num [profit, deriveRow, raw1, raw3]
  · rw [hfilter]
    rfl
  · rfl

theorem parseCells_rowCells (r : Row) : parseCells (rowCells r) = some r := by
  obtain ⟨d, ds, tk, ps, pc, pd, a, dp, lp, rm, bn, np⟩ := r
  cases a <;> cases dp <;> cases lp <;> cases np <;> rfl

theorem mapM_parseCells (v : List Row) : (v.map rowCells).mapM parseCells = some v := by
  induction v with
  | nil => rfl
  | cons r rs ih =>
    rw [List.map_cons, List.mapM_cons, parseCells_rowCells, ih]
    rfl

/-- C8: the export writes one sheet consisting of the header row followed by
the rows of the view (no index column, all columns including Net Profit),
and re-parsing the exported sheet restores the view cell-for-cell. -/
theorem export_roundtrip (v : List Row) :
    to_excel v = sheetHeader :: v.map rowCells ∧
    parseSheet (to_excel v) = some v := by
  refine ⟨rfl, ?_⟩
  show parseSheet (sheetHeader :: v.map rowCells) = some v
  simp only [parseSheet, if_pos]
  exact mapM_parseCells v

/-- C9: a missing, malformed, or column-deficient source file makes
`load_data` fail with a `DataLoadError`, and the page shows the error as a
message while the rest of the interface keeps its last valid state. -/
theorem load_error_surfaced (c : FilterCriteria) (prev : UIState) :
    load_data SourceFile.missing = Except.error DataLoadError.fileMissing ∧
    load_data SourceFile.malformed = Except.error DataLoadError.malformed ∧
    (∀ cols rows col, col ∈ requiredColumns → col ∉ cols →
      ∃ e, load_data (SourceFile.table cols rows) = Except.error e) ∧
    (∀ src e, load_data src = Except.error e →
      renderApp src c prev = { errorMsg := some (errorText e), view := prev.view }) := by
  refine ⟨rfl, rfl, ?_, ?_⟩
  · intro cols rows col hmem hnot
    cases hfind : requiredColumns.find? (fun name => !(cols.contains name)) with
    | some c0 =>
      refine ⟨DataLoadError.missingColumn c0, ?_⟩
      simp only [load_data]
      rw [hfind]
    | none =>
      exfalso
      have hcol := List.find?_eq_none.mp hfind col hmem
      simp at hcol
      exact hnot hcol
  · intro src e h
    unfold renderApp
    rw [h]

theorem load_error_surfaced_witness :
    (∃ e, load_data (SourceFile.table [] []) = Except.error e) ∧
    renderApp SourceFile.missing emptyCriteria ⟨none, some tbl3⟩ =
      { errorMsg := some (errorText DataLoadError.fileMissing), view := some tbl3 } :=
  ⟨(load_error_surfaced emptyCriteria ⟨none, some tbl3⟩).2.2.1 [] [] "Driver"
      (by simp [requiredColumns]) (by simp),
   (load_error_surfaced emptyCriteria ⟨none, some tbl3⟩).2.2.2 SourceFile.missing
      DataLoadError.fileMissing rfl⟩

/-- C10: the filtered view is an order-preserving subsequence of the table:
every row is an unchanged row of the table, no row is duplicated, and the
relative order is that of the table. -/
theorem filtered_df_sublist (t : List Row) (c : FilterCriteria) :
    (filtered_df t c).Sublist t := by
  rw [filtered_df_eq_applyDims]
  exact applyDims_sublist c sourceOrder t

end LoadApp
